import Mathlib

/-!
Shallow embedding of the hexapawn library (src/hexapawn/__init__.py):
square geometry (`Squares`), moves (`Move`, `Move.from_uci`) and board
state (`Board` with `clear`, `reset`, `piece_at`, `is_legal`,
`generate_legal_moves`), together with theorems checking the
natural-language specification against this embedding.

The Python code uses `Color = bool` with `WHITE = True`, `BLACK = False`,
so colors are embedded as `Bool`.  Several spots of the Python code rely
on value semantics of `bool`/`None` (truthiness, `==` between
`Optional[bool]` and `int`, bitwise `~` on a `bool`); these are embedded
by explicit helper functions (`pyTruthy`, `pyEqOptBool`, `pyEqOptInt`,
`pyInvert`) that reproduce the Python semantics exactly.  Code that can
raise (the `assert` in `capture_candidates`, the `Squares(coords)` enum
lookup, the `ValueError` in `Move.from_uci`) is embedded with `Option`,
`none` standing for a raised exception.
-/

namespace Hexapawn

/-- `Color = bool` in the source. -/
abbrev Color := Bool

/-- `WHITE: Color = True`. -/
def WHITE : Color := true

/-- `BLACK: Color = False`. -/
def BLACK : Color := false

/-- The `Squares` enum: all squares of the board. Constructor order is the
Python definition order, which is also the `Enum` iteration order. -/
inductive Squares where
  | A1 | A2 | A3 | B1 | B2 | B3 | C1 | C2 | C3
  deriving DecidableEq, Fintype, Repr

/-- The `(file, rank)` value attached to each enum member.  Python ints are
embedded as `Int` (rank arithmetic can go negative). -/
def Squares.value : Squares → Int × Int
  | .A1 => (0, 0)
  | .A2 => (0, 1)
  | .A3 => (0, 2)
  | .B1 => (1, 0)
  | .B2 => (1, 1)
  | .B3 => (1, 2)
  | .C1 => (2, 0)
  | .C2 => (2, 1)
  | .C3 => (2, 2)

/-- The enum lookup `Squares(coords)`: the member with the given value, or
`none` where Python would raise `ValueError` (no such member). -/
def squareOfCoords : Int × Int → Option Squares
  | (0, 0) => some .A1
  | (0, 1) => some .A2
  | (0, 2) => some .A3
  | (1, 0) => some .B1
  | (1, 1) => some .B2
  | (1, 2) => some .B3
  | (2, 0) => some .C1
  | (2, 1) => some .C2
  | (2, 2) => some .C3
  | _ => none

/-- `Squares._advance_rank`: coordinate of the square a pawn of
`player_color` would advance to without capturing, `None` when the new
rank falls outside `[0, 2]`. -/
def Squares._advance_rank (coords : Int × Int) (player_color : Color) :
    Option (Int × Int) :=
  let new_coords : Int × Int :=
    (coords.1, coords.2 + (if player_color == WHITE then 1 else -1))
  if new_coords.2 < 0 ∨ new_coords.2 > 2 then none else some new_coords

/-- `Squares._change_file`: changes the file of a coordinate tuple in the
direction given by `left`, `None` when the new file falls outside `[0, 2]`. -/
def Squares._change_file (coords : Int × Int) (left : Bool) :
    Option (Int × Int) :=
  let new_coords : Int × Int :=
    (coords.1 + (if left then -1 else 1), coords.2)
  if new_coords.1 < 0 ∨ new_coords.1 > 2 then none else some new_coords

/-- `Squares.can_advance_to`: whether `player_color` could advance a piece
from this square to `target_square` in a non-capturing move. -/
def Squares.can_advance_to (self target_square : Squares)
    (player_color : Color) : Bool :=
  let (source_file, source_rank) := self.value
  let (target_file, target_rank) := target_square.value
  if source_file != target_file then false
  else
    let delta_rank : Int := if player_color == WHITE then 1 else -1
    source_rank + delta_rank == target_rank

/-- `Squares.capture_candidates`: the squares a pawn of `player_color`
standing on this square could capture at.  The Python function returns a
`set`; it is embedded as a `List Squares` (proved duplicate-free below).
`none` models a raised exception: the `assert len(candidate_coords) > 0`
failing, or a `Squares(coords)` lookup raising `ValueError`.  The
comprehension `[coords for left in [True, False] if (coords := ...)]`
keeps exactly the non-`None` results (a coordinate tuple is always
truthy), hence `List.filterMap`. -/
def Squares.capture_candidates (self : Squares) (player_color : Color) :
    Option (List Squares) :=
  match Squares._advance_rank self.value player_color with
  | none => some []
  | some rank_advanced_coords =>
    let candidate_coords :=
      [true, false].filterMap
        (fun left => Squares._change_file rank_advanced_coords left)
    if candidate_coords.length > 0 then
      candidate_coords.mapM squareOfCoords
    else
      none

/-- The `Move` dataclass: a pawn move from a square to a square. -/
structure Move where
  from_square : Squares
  to_square : Squares
  deriving DecidableEq, Fintype, Repr

/-- Python `str.strip()` on a list of characters: remove leading and
trailing whitespace. -/
def pyStrip (l : List Char) : List Char :=
  ((l.dropWhile Char.isWhitespace).reverse.dropWhile Char.isWhitespace).reverse

/-- Character class `[abc]` of the UCI regular expression. -/
def isFileChar (c : Char) : Bool :=
  c == 'a' || c == 'b' || c == 'c'

/-- Character class `[1-3]` of the UCI regular expression. -/
def isRankChar (c : Char) : Bool :=
  c == '1' || c == '2' || c == '3'

/-- The lookup `Squares[label.upper()]` for a two-character square label:
the enum member named by a file letter and a rank digit. -/
def squareOfLabel : Char → Char → Option Squares
  | 'a', '1' => some .A1
  | 'a', '2' => some .A2
  | 'a', '3' => some .A3
  | 'b', '1' => some .B1
  | 'b', '2' => some .B2
  | 'b', '3' => some .B3
  | 'c', '1' => some .C1
  | 'c', '2' => some .C2
  | 'c', '3' => some .C3
  | _, _ => none

/-- `Move.from_uci`: parses a move from a UCI string.  The source matches
`re.match("([abc][1-3])([abc][1-3])", uci.lower().strip())`; `re.match`
anchors at the start only, so characters after the first four are
ignored.  `none` models the raised `ValueError`. -/
def Move.from_uci (uci : String) : Option Move :=
  match pyStrip (uci.data.map Char.toLower) with
  | f1 :: r1 :: f2 :: r2 :: _ =>
    if isFileChar f1 && isRankChar r1 && isFileChar f2 && isRankChar r2 then
      match squareOfLabel f1 r1, squareOfLabel f2 r2 with
      | some a, some b => some ⟨a, b⟩
      | _, _ => none
    else
      none
  | _ => none

/-! ### Python value semantics helpers

`piece_at` returns `Optional[Color]`, i.e. `True`, `False` or `None`;
embedded as `Option Bool`. -/

/-- Python truthiness of an `Optional[bool]`: `None` and `False` are
falsy, `True` is truthy.  Embeds `if not self.piece_at(move.to_square)`. -/
def pyTruthy (p : Option Bool) : Bool :=
  match p with
  | none => false
  | some c => c

/-- Python `==` between an `Optional[bool]` and a `bool`: `None == b` is
`False`, bools compare by value. -/
def pyEqOptBool (p : Option Bool) (b : Bool) : Bool :=
  match p with
  | none => false
  | some c => c == b

/-- The Python int value of a `bool` (`True` is `1`, `False` is `0`). -/
def pyInt (b : Bool) : Int := if b then 1 else 0

/-- Python bitwise `~` applied to a `bool`: `~b` is the int `-b - 1`, so
`~True = -2` and `~False = -1`.  Embeds `~self.turn`. -/
def pyInvert (b : Bool) : Int := -(pyInt b) - 1

/-- Python `==` between an `Optional[bool]` and an `int`: `None == n` is
`False`, a bool equals an int iff its int value does.  Embeds
`self.piece_at(move.to_square) == ~self.turn`. -/
def pyEqOptInt (p : Option Bool) (n : Int) : Bool :=
  match p with
  | none => false
  | some c => pyInt c == n

/-! ### Board -/

/-- File index of a square as a `Fin 3`, for indexing `_board`.  Agrees
with `Squares.value` (see `value_eq_idx`). -/
def Squares.fileIdx : Squares → Fin 3
  | .A1 | .A2 | .A3 => 0
  | .B1 | .B2 | .B3 => 1
  | .C1 | .C2 | .C3 => 2

/-- Rank index of a square as a `Fin 3`, for indexing `_board`.  Agrees
with `Squares.value` (see `value_eq_idx`). -/
def Squares.rankIdx : Squares → Fin 3
  | .A1 | .B1 | .C1 => 0
  | .A2 | .B2 | .C2 => 1
  | .A3 | .B3 | .C3 => 2

/-- The `Board` class: the 3×3 array `_board` (indexed `[file][rank]`,
entries `Optional[Color]`) and the `turn` field. -/
structure Board where
  _board : Fin 3 → Fin 3 → Option Color
  turn : Color

/-- Writing one entry of the board array: `self._board[file][rank] = v`. -/
def setCoord (bd : Fin 3 → Fin 3 → Option Color) (file rank : Fin 3)
    (v : Option Color) : Fin 3 → Fin 3 → Option Color :=
  fun f r => if f = file ∧ r = rank then v else bd f r

/-- `Board.clear`: removes all pieces from the board (the loop sets every
entry to `None`); returns the board, `turn` untouched. -/
def Board.clear (self : Board) : Board :=
  { self with _board := fun _ _ => none }

/-- `Board.reset`: places the six starting pawns (writes in the source's
loop order) and sets `turn` to `WHITE`.  Note the source writes only the
six back-rank entries; other entries keep their previous contents. -/
def Board.reset (self : Board) : Board :=
  { _board :=
      setCoord (setCoord (setCoord
        (setCoord (setCoord (setCoord self._board
          Squares.A1.fileIdx Squares.A1.rankIdx (some WHITE))
          Squares.B1.fileIdx Squares.B1.rankIdx (some WHITE))
          Squares.C1.fileIdx Squares.C1.rankIdx (some WHITE))
        Squares.A3.fileIdx Squares.A3.rankIdx (some BLACK))
        Squares.B3.fileIdx Squares.B3.rankIdx (some BLACK))
        Squares.C3.fileIdx Squares.C3.rankIdx (some BLACK),
    turn := WHITE }

/-- `Board.piece_at`: the `Color` of the piece at the given square, or
`None` if unoccupied. -/
def Board.piece_at (self : Board) (square : Squares) : Option Color :=
  self._board square.fileIdx square.rankIdx

/-- `Board.is_legal`: whether `move` is legal in the current state.
`none` models an exception propagating out of `capture_candidates`
(proved unreachable below).  The three steps follow the source: the
source-square occupancy check (`not self.piece_at(...) == self.turn`),
the advance branch (`if not self.piece_at(move.to_square)` — Python
truthiness), and the capture branch
(`self.piece_at(move.to_square) == ~self.turn` — `~` on a Python bool
yields the int `-2` or `-1`). -/
def Board.is_legal (self : Board) (move : Move) : Option Bool :=
  if !(pyEqOptBool (self.piece_at move.from_square) self.turn) then
    some false
  else if move.from_square.can_advance_to move.to_square self.turn
      && !(pyTruthy (self.piece_at move.to_square)) then
    some true
  else
    match move.from_square.capture_candidates self.turn with
    | none => none
    | some cands =>
      if move.to_square ∈ cands
          && pyEqOptInt (self.piece_at move.to_square) (pyInvert self.turn) then
        some true
      else
        some false

/-- The 9 squares in `Enum` iteration order (definition order), as
iterated by `product(Squares, Squares)`. -/
def squaresList : List Squares :=
  [.A1, .A2, .A3, .B1, .B2, .B3, .C1, .C2, .C3]

/-- All 81 candidate moves in the order `product(Squares, Squares)`
produces them: `from` in enum order, and for each `from`, `to` in the
same order. -/
def allMoves : List Move :=
  squaresList.flatMap (fun f => squaresList.map (fun t => Move.mk f t))

/-- `Board.generate_legal_moves`: the moves of `product(Squares, Squares)`
passing `is_legal`.  The generator keeps a move when `is_legal` returns a
truthy value, i.e. `True`; a raised exception (`none`, proved unreachable
below) would abort the Python generator. -/
def Board.generate_legal_moves (self : Board) : List Move :=
  allMoves.filter (fun move => self.is_legal move == some true)

/-- `Board.legal_moves`: property wrapping `generate_legal_moves`. -/
def Board.legal_moves (self : Board) : List Move :=
  self.generate_legal_moves

/-! ### Auxiliary definitions used by the theorems -/

/-- Position of a square in the `Enum` iteration order (`A1` is `0`, …,
`C3` is `8`). -/
def squareIndex : Squares → Nat
  | .A1 => 0
  | .A2 => 1
  | .A3 => 2
  | .B1 => 3
  | .B2 => 4
  | .B3 => 5
  | .C1 => 6
  | .C2 => 7
  | .C3 => 8

/-- Position of a move in the canonical generation order: `from` is the
major key, `to` the minor key, both in `Enum` iteration order. -/
def moveIdx (m : Move) : Nat :=
  9 * squareIndex m.from_square + squareIndex m.to_square

/-- The two-character label of a square, as it appears in (lowercased)
UCI notation. -/
def labelChars : Squares → List Char
  | .A1 => ['a', '1']
  | .A2 => ['a', '2']
  | .A3 => ['a', '3']
  | .B1 => ['b', '1']
  | .B2 => ['b', '2']
  | .B3 => ['b', '3']
  | .C1 => ['c', '1']
  | .C2 => ['c', '2']
  | .C3 => ['c', '3']

/-- Grammar acceptance as `Move.from_uci` actually applies it: after
lowercasing and stripping, the string must *begin* with two valid square
labels (four valid characters); anything after them is ignored.  Written
independently of `Move.from_uci` (via length and positional lookups) to
characterise it. -/
def matchesPrefixGrammar (uci : String) : Bool :=
  let s := pyStrip (uci.data.map Char.toLower)
  decide (4 ≤ s.length) && isFileChar (s.getD 0 ' ') && isRankChar (s.getD 1 ' ')
    && isFileChar (s.getD 2 ' ') && isRankChar (s.getD 3 ' ')

/-- A board with a single White pawn on B2, before a `reset` call. -/
def boardB2 : Board :=
  { _board := setCoord (fun _ _ => none)
      Squares.B2.fileIdx Squares.B2.rankIdx (some WHITE),
    turn := WHITE }

/-- The board of spec Scenario 3: White pawn on B2, Black pawn on A3,
White to move. -/
def boardCapture : Board :=
  { _board := setCoord (setCoord (fun _ _ => none)
      Squares.B2.fileIdx Squares.B2.rankIdx (some WHITE))
      Squares.A3.fileIdx Squares.A3.rankIdx (some BLACK),
    turn := WHITE }

/-- A board with a White pawn on A1 and a Black pawn directly ahead on
A2, White to move. -/
def boardBlocked : Board :=
  { _board := setCoord (setCoord (fun _ _ => none)
      Squares.A1.fileIdx Squares.A1.rankIdx (some WHITE))
      Squares.A2.fileIdx Squares.A2.rankIdx (some BLACK),
    turn := WHITE }

/-! ### Helper lemmas -/

/-- The index pair agrees with the enum value. -/
theorem value_eq_idx (s : Squares) :
    s.value = ((s.fileIdx : Int), (s.rankIdx : Int)) := by
  cases s <;> rfl

/-- `capture_candidates` never raises: the `assert` and the enum lookups
always succeed. -/
theorem capture_candidates_isSome (s : Squares) (c : Color) :
    (s.capture_candidates c).isSome := by
  revert s c; decide

/-- `is_legal` never raises. -/
theorem is_legal_isSome (b : Board) (m : Move) : (b.is_legal m).isSome := by
  unfold Board.is_legal
  have h := capture_candidates_isSome m.from_square b.turn
  rcases hc : m.from_square.capture_candidates b.turn with _ | cands
  · rw [hc] at h
    simp at h
  · split
    · rfl
    · split
      · rfl
      · split
        · simp_all
        · split <;> rfl

/-- Every move is among the 81 generated candidates. -/
theorem mem_allMoves (m : Move) : m ∈ allMoves := by
  revert m; decide

/-- The candidate list is strictly sorted in the canonical order. -/
theorem allMoves_sorted :
    List.Pairwise (fun m1 m2 => moveIdx m1 < moveIdx m2) allMoves := by
  decide

/-- The candidate list has no duplicates. -/
theorem allMoves_nodup : allMoves.Nodup := by
  decide

/-- For characters accepted by `[abc]` and `[1-3]` the label lookup
succeeds and the found square's label is those two characters. -/
theorem squareOfLabel_valid (f r : Char) (hf : isFileChar f = true)
    (hr : isRankChar r = true) :
    ∃ s : Squares, squareOfLabel f r = some s ∧ labelChars s = [f, r] := by
  simp only [isFileChar, isRankChar, Bool.or_eq_true, beq_iff_eq] at hf hr
  rcases hf with (rfl | rfl) | rfl <;> rcases hr with (rfl | rfl) | rfl <;>
    exact ⟨_, rfl, rfl⟩

/-! ### Claim theorems -/

/-- C7: for every square `s` and color `c`, the advance computation
returns `none` exactly when `s` lies on the farthest rank in `c`'s
direction (rank 2 for White, rank 0 for Black), and otherwise the
coordinate with the same file and the rank shifted by `+1` for White or
`-1` for Black. -/
theorem C7_advance_rank_spec :
    ∀ (s : Squares) (c : Color),
      Squares._advance_rank s.value c =
        (if (if c = WHITE then s.value.2 = 2 else s.value.2 = 0) then none
         else some (s.value.1, s.value.2 + (if c = WHITE then 1 else -1))) := by
  decide

/-- C8: for every square `s` and color `c`, `capture_candidates` succeeds
and returns exactly the squares diagonally ahead of `s` in `c`'s forward
direction (file ±1, rank shifted as for an advance), without duplicates;
its size is 0 when the forward rank is off-board, 1 when it is on-board
and `s`'s file is 0 or 2, and 2 when it is on-board and `s`'s file is 1. -/
theorem C8_capture_candidates_spec :
    ∀ (s : Squares) (c : Color),
      (s.capture_candidates c).isSome = true ∧
      ((s.capture_candidates c).getD []).Nodup ∧
      (∀ t : Squares,
        t ∈ (s.capture_candidates c).getD [] ↔
          (t.value.1 = s.value.1 - 1 ∨ t.value.1 = s.value.1 + 1) ∧
          t.value.2 = s.value.2 + (if c = WHITE then 1 else -1)) ∧
      ((s.capture_candidates c).getD []).length =
        (if (Squares._advance_rank s.value c).isSome = false then 0
         else if s.value.1 = 0 ∨ s.value.1 = 2 then 1 else 2) := by
  decide

/-- C9: `is_legal` is total — it returns a boolean for every board and
move, never an exception — and the assertion inside `capture_candidates`
(as well as its enum lookups) always succeeds, so the exception branch is
unreachable. -/
theorem C9_is_legal_total :
    (∀ (b : Board) (m : Move), ∃ r : Bool, b.is_legal m = some r) ∧
    (∀ (s : Squares) (c : Color), (s.capture_candidates c).isSome = true) := by
  constructor
  · intro b m
    exact Option.isSome_iff_exists.mp (is_legal_isSome b m)
  · intro s c
    exact capture_candidates_isSome s c

/-- C6: `clear` empties every square and leaves the side to move
unchanged; it always succeeds (it is a total function). -/
theorem C6_clear_spec :
    ∀ (b : Board) (s : Squares),
      b.clear.piece_at s = none ∧ b.clear.turn = b.turn :=
  fun _ _ => ⟨rfl, rfl⟩

/-- C3 counterexample: `reset` does not restore the canonical starting
layout from an arbitrary board.  On a board holding a White pawn on B2,
after `reset()` the middle-rank square B2 still holds that pawn, while
the claim says every square outside the two back ranks is Empty after
`reset()`. -/
theorem C3_counterexample_reset_keeps_B2 :
    boardB2.reset.piece_at Squares.B2 = some WHITE ∧
    boardB2.reset.piece_at Squares.B2 ≠ none := by
  exact ⟨rfl, by decide⟩

/-- C3 amended: `reset` writes White pawns on a1, b1, c1, Black pawns on
a3, b3, c3 and sets the side to move to White, but leaves every other
square (the middle rank) with its previous occupancy; in particular on a
board whose other squares are empty — such as one just cleared — the
result is exactly the canonical starting layout.  `reset` always
succeeds. -/
theorem C3_reset_spec :
    ∀ b : Board,
      (b.reset.piece_at .A1 = some WHITE ∧
       b.reset.piece_at .B1 = some WHITE ∧
       b.reset.piece_at .C1 = some WHITE) ∧
      (b.reset.piece_at .A3 = some BLACK ∧
       b.reset.piece_at .B3 = some BLACK ∧
       b.reset.piece_at .C3 = some BLACK) ∧
      b.reset.turn = WHITE ∧
      (b.reset.piece_at .A2 = b.piece_at .A2 ∧
       b.reset.piece_at .B2 = b.piece_at .B2 ∧
       b.reset.piece_at .C2 = b.piece_at .C2) ∧
      (∀ s : Squares,
        b.clear.reset.piece_at s =
          (if s.rankIdx = 0 then some WHITE
           else if s.rankIdx = 2 then some BLACK else none)) :=
  fun b =>
    ⟨⟨rfl, rfl, rfl⟩, ⟨rfl, rfl, rfl⟩, rfl, ⟨rfl, rfl, rfl⟩,
     fun s => by cases s <;> rfl⟩

/-- C1 is violated by the code: on the Scenario 3 board (White pawn on
B2, Black pawn on A3, White to move) the claim's hypotheses all hold —
the from-square holds the side to move's pawn, A3 is a capture candidate
of B2 for White, and A3 holds the opposite color — yet `is_legal`
returns `False`.  The final conjunct shows why: the capture branch
compares `piece_at(to)` with `~turn`, which in Python is the int `-2` or
`-1` and never equals a piece color, so the capture test fails on every
input. -/
theorem C1_capture_never_legal :
    boardCapture.turn = WHITE ∧
    boardCapture.piece_at Squares.B2 = some WHITE ∧
    Squares.capture_candidates Squares.B2 WHITE =
      some [Squares.A3, Squares.C3] ∧
    boardCapture.piece_at Squares.A3 = some BLACK ∧
    boardCapture.is_legal ⟨Squares.B2, Squares.A3⟩ = some false ∧
    (∀ (p : Option Bool) (c : Bool), pyEqOptInt p (pyInvert c) = false) := by
  refine ⟨rfl, rfl, rfl, rfl, rfl, ?_⟩
  decide

/-- C2 is violated by the code: on a board with a White pawn on A1 and a
Black pawn on A2, White to move, the advance-shaped move A1→A2 is
reported legal although its target square holds a Black pawn (and A2 is
not a capture candidate of A1, so the move is not a capture).  The
advance branch tests the target with Python truthiness, and `BLACK`
(`False`) is falsy, so a Black-occupied square passes for empty. -/
theorem C2_advance_onto_black :
    boardBlocked.turn = WHITE ∧
    boardBlocked.piece_at Squares.A1 = some WHITE ∧
    boardBlocked.piece_at Squares.A2 = some BLACK ∧
    Squares.can_advance_to Squares.A1 Squares.A2 WHITE = true ∧
    Squares.capture_candidates Squares.A1 WHITE = some [Squares.B2] ∧
    boardBlocked.is_legal ⟨Squares.A1, Squares.A2⟩ = some true :=
  ⟨rfl, rfl, rfl, rfl, rfl, rfl⟩

/-- C5: `generate_legal_moves` emits exactly the moves `is_legal`
accepts — every legal move appears, every emitted move is legal, each
exactly once — in the canonical order: the from-square iterated over the
9 squares in enum order and, for each from-square, the to-square in that
same order (strictly increasing `moveIdx`). -/
theorem C5_generate_legal_moves_spec :
    ∀ b : Board,
      (∀ m : Move,
        m ∈ b.generate_legal_moves ↔ b.is_legal m = some true) ∧
      List.Pairwise (fun m1 m2 => moveIdx m1 < moveIdx m2)
        b.generate_legal_moves ∧
      (∀ m : Move,
        b.is_legal m = some true → b.generate_legal_moves.count m = 1) := by
  intro b
  have hmem : ∀ m : Move,
      m ∈ b.generate_legal_moves ↔ b.is_legal m = some true := by
    intro m
    unfold Board.generate_legal_moves
    rw [List.mem_filter]
    simp [mem_allMoves m]
  refine ⟨hmem, ?_, ?_⟩
  · exact allMoves_sorted.sublist (List.filter_sublist allMoves)
  · intro m hm
    exact List.count_eq_one_of_mem (allMoves_nodup.filter _)
      ((hmem m).mpr hm)

/-- C10: `from_uci` lowercases and strips its input and matches only at
the start of the string, so a padded uppercase input and an input with
trailing garbage both parse to the same move as the plain four-character
string. -/
theorem C10_from_uci_normalizes :
    Move.from_uci " A1A2 " = some ⟨Squares.A1, Squares.A2⟩ ∧
    Move.from_uci "a1a2xyz" = some ⟨Squares.A1, Squares.A2⟩ ∧
    Move.from_uci "a1a2" = some ⟨Squares.A1, Squares.A2⟩ := by
  refine ⟨?_, ?_, ?_⟩ <;> rfl

/-- C4 counterexample: the claim says parsing fails exactly when the
input does not match the two-square-label grammar, in particular on
wrong-length input; but `"a1a2xyz"` has length 7, not 4, and still
parses successfully. -/
theorem C4_counterexample_trailing_accepted :
    Move.from_uci "a1a2xyz" = some ⟨Squares.A1, Squares.A2⟩ ∧
    "a1a2xyz".length ≠ 4 := by
  exact ⟨rfl, by decide⟩

/-- C4 amended: `from_uci` fails exactly when the lowercased,
whitespace-stripped input does not *begin* with two valid square labels
(`matchesPrefixGrammar`); on success the move's squares are the squares
of those first two labels and any trailing characters are ignored;
parsing "c2b3" yields Move(C2, B3) and "a3a4" and "c2d3" raise. -/
theorem C4_from_uci_spec :
    (∀ uci : String,
      (Move.from_uci uci).isSome = matchesPrefixGrammar uci) ∧
    (∀ (uci : String) (m : Move), Move.from_uci uci = some m →
      ∃ rest : List Char,
        pyStrip (uci.data.map Char.toLower) =
          labelChars m.from_square ++ labelChars m.to_square ++ rest) ∧
    Move.from_uci "c2b3" = some ⟨Squares.C2, Squares.B3⟩ ∧
    Move.from_uci "a3a4" = none ∧
    Move.from_uci "c2d3" = none := by
  refine ⟨?_, ?_, rfl, rfl, rfl⟩
  · intro uci
    unfold Move.from_uci matchesPrefixGrammar
    rcases hl : pyStrip (uci.data.map Char.toLower) with
      _ | ⟨f1, _ | ⟨r1, _ | ⟨f2, _ | ⟨r2, rest⟩⟩⟩⟩ <;>
      simp only [List.getD, List.length, Option.isSome_none, List.get?]
    · simp
    · simp
    · simp
    · simp
    · cases hf1 : isFileChar f1 <;> cases hr1 : isRankChar r1 <;>
        cases hf2 : isFileChar f2 <;> cases hr2 : isRankChar r2 <;>
        simp_all
      obtain ⟨s1, hs1, -⟩ := squareOfLabel_valid f1 r1 hf1 hr1
      obtain ⟨s2, hs2, -⟩ := squareOfLabel_valid f2 r2 hf2 hr2
      rw [hs1, hs2]
      simp
  · intro uci m h
    unfold Move.from_uci at h
    rcases hl : pyStrip (uci.data.map Char.toLower) with
      _ | ⟨f1, _ | ⟨r1, _ | ⟨f2, _ | ⟨r2, rest⟩⟩⟩⟩ <;> rw [hl] at h
    · exact absurd h (by simp)
    · exact absurd h (by simp)
    · exact absurd h (by simp)
    · exact absurd h (by simp)
    have h2 :
        (if (isFileChar f1 && isRankChar r1 && isFileChar f2 && isRankChar r2)
            = true then
          (match squareOfLabel f1 r1, squareOfLabel f2 r2 with
           | some a, some b => some (Move.mk a b)
           | _, _ => none)
         else none) = some m := h
    by_cases hv :
        (isFileChar f1 && isRankChar r1 && isFileChar f2 && isRankChar r2)
          = true
    · rw [if_pos hv] at h2
      simp only [Bool.and_eq_true] at hv
      obtain ⟨⟨⟨hf1, hr1⟩, hf2⟩, hr2⟩ := hv
      obtain ⟨s1, hs1, hl1⟩ := squareOfLabel_valid f1 r1 hf1 hr1
      obtain ⟨s2, hs2, hl2⟩ := squareOfLabel_valid f2 r2 hf2 hr2
      rw [hs1, hs2] at h2
      cases h2
      exact ⟨rest, by rw [hl1, hl2]; rfl⟩
    · rw [if_neg hv] at h2
      exact absurd h2 (by simp)

/-- C4 witness: the success characterization applied at the concrete
input "c2b3". -/
theorem C4_from_uci_spec_witness :
    ∃ rest : List Char,
      pyStrip ("c2b3".data.map Char.toLower) =
        labelChars Squares.C2 ++ labelChars Squares.B3 ++ rest :=
  C4_from_uci_spec.2.1 "c2b3" ⟨Squares.C2, Squares.B3⟩ (by rfl)

/-- C5 witness: the exactly-once part applied to the legal advance B2→B3
on the Scenario 3 board. -/
theorem C5_generate_legal_moves_spec_witness :
    boardCapture.is_legal ⟨Squares.B2, Squares.B3⟩ = some true ∧
    boardCapture.generate_legal_moves.count ⟨Squares.B2, Squares.B3⟩ = 1 :=
  ⟨by decide,
   (C5_generate_legal_moves_spec boardCapture).2.2
     ⟨Squares.B2, Squares.B3⟩ (by decide)⟩

end Hexapawn
